import Mathlib

/-!
Verification of the Hermes restaurant-collection pipeline
(`src/notebooks/scraping_101.py`) against its specification.

The Python module is a single class `HermesRestaurantCollector` with four
pipeline stages: paginated area search (`get_restaurants_in_area`),
deduplication across anchor points (`collect_barcelona_restaurants`),
detail enrichment (`enrich_with_details_and_reviews` via
`get_restaurant_details`), and flattening to two tables
(`create_dataframe`).  We embed each stage shallowly: HTTP responses become
values drawn from an oracle function, Python dict-key accesses that may
raise `KeyError` return `Except`, `time.sleep` calls become events in an
explicit trace, and the unbounded `while True` pagination loop takes a fuel
argument (returning `none` when fuel is exhausted, which never happens in
the scenarios considered).
-/

namespace Hermes

/-- A Python `KeyError` raised by a `d[k]` access on a dict missing key `k`.
This is the only kind of exception the embedded code can raise. -/
inductive PyErr : Type
  | keyError (key : String)
  deriving Repr, DecidableEq

/-- A raw listing returned by the nearby-search endpoint.  The Python code
manipulates these as dicts; the only key it reads is `'place_id'` (always
present in the wire format), plus `'name'` via `.get` for logging.  The
`name` field keeps stubs with equal identifiers distinguishable. -/
structure ListingStub : Type where
  place_id : String
  name : Option String
  deriving Repr, DecidableEq

/-- One review object inside a details payload.  All keys are read with
`.get`, so each field is optional. -/
structure Review : Type where
  author_name : Option String
  rating : Option ℚ
  text : Option String
  time : Option Int
  language : Option String
  relative_time_description : Option String
  deriving Repr, DecidableEq

/-! ## Deduplicator: `collect_barcelona_restaurants`, lines 128-147

The function iterates over the nine fixed anchor points, fetches each
area's listings, and keeps a stub only when its `place_id` has not been
seen before.  The per-area fetched lists are abstracted as the input
`areas : List (List ListingStub)` (one entry per anchor point, in anchor
order); the `seen_place_ids` Python set is embedded as a `List String`
used only through membership. -/

/-- The inner per-area loop of `collect_barcelona_restaurants`
(lines 139-143): build `new_restaurants` from one area's listings, keeping
a stub iff its `place_id` is not in `seen_place_ids`, and return the
updated seen-set. -/
def dedupArea : List ListingStub → List String → List ListingStub × List String
  | [], seen => ([], seen)
  | r :: rest, seen =>
    if r.place_id ∈ seen then dedupArea rest seen
    else
      let p := dedupArea rest (r.place_id :: seen)
      (r :: p.1, p.2)

/-- The outer loop of `collect_barcelona_restaurants` (lines 131-150):
process each anchor point's listings in order, threading the seen-set and
extending `all_restaurants` with each area's `new_restaurants`. -/
def collectLoop : List (List ListingStub) → List String → List ListingStub
  | [], _ => []
  | area :: more, seen =>
    let p := dedupArea area seen
    p.1 ++ collectLoop more p.2

/-- `collect_barcelona_restaurants` (lines 103-157), with the per-anchor
network fetches abstracted as the list of per-anchor listing batches
`areas`: deduplicate by `place_id` across all areas, starting from an
empty seen-set. -/
def collect_barcelona_restaurants (areas : List (List ListingStub)) :
    List ListingStub :=
  collectLoop areas []

/-- Spec-side characterization (section 4.2 of the spec): keep, from a
single merged sequence of stubs, exactly the first occurrence of each
identifier, in first-seen order.  `seen` is the set of identifiers already
encountered. -/
def specFirstSeen : List ListingStub → List String → List ListingStub
  | [], _ => []
  | r :: rest, seen =>
    if r.place_id ∈ seen then specFirstSeen rest seen
    else r :: specFirstSeen rest (r.place_id :: seen)

/-! ## AreaSearch: `get_restaurants_in_area`, lines 24-73

The pagination loop issues requests (first with location/radius parameters,
then with the continuation token), breaks on any non-`'OK'` status, extends
the accumulator with each batch, and sleeps 2 seconds before a follow-up
request when `'next_page_token'` is present.  The HTTP endpooint is an
oracle `fetch` from request parameters to the decoded JSON response; the
emitted requests and `time.sleep` calls are recorded in an event trace.
The `while True` loop takes fuel; exhausted fuel yields `none`. -/

/-- The query parameters of one nearby-search request: either the initial
location/radius/type/key/language dict (lines 40-46) or the follow-up
pagetoken/key dict (lines 66-69). -/
inductive AreaParams : Type
  | initial (location : String) (radius : Nat)
  | pagetoken (token : String)
  deriving Repr, DecidableEq

/-- Observable events of one area search: an HTTP request to the
nearby-search endpoint, or a `time.sleep` of the given number of seconds. -/
inductive AreaEvent : Type
  | request (params : AreaParams)
  | sleep (seconds : ℚ)
  deriving Repr, DecidableEq

/-- The decoded JSON body of one nearby-search response.  Each field is
optional because the Python reads them from a dict: `data['status']` and
`data['results']` raise `KeyError` when absent, `'next_page_token' in data`
tests presence. -/
structure AreaPage : Type where
  status : Option String
  results : Option (List ListingStub)
  next_page_token : Option String
  deriving Repr, DecidableEq

/-- `self.barcelona_coords` (line 22). -/
def barcelona_coords : String := "41.3851,2.1734"

/-- The `while True` pagination loop of `get_restaurants_in_area`
(lines 50-71), with fuel.  Returns `none` if fuel runs out, otherwise the
`KeyError` raised or the accumulated stub list together with the event
trace. -/
def areaLoop (fetch : AreaParams → AreaPage) :
    Nat → AreaParams → List ListingStub → List AreaEvent →
    Option (Except PyErr (List ListingStub × List AreaEvent))
  | 0, _, _, _ => none
  | fuel + 1, params, acc, tr =>
    let tr1 := tr ++ [AreaEvent.request params]
    let data := fetch params
    match data.status with
    | none => some (Except.error (PyErr.keyError "status"))
    | some st =>
      if st = "OK" then
        match data.results with
        | none => some (Except.error (PyErr.keyError "results"))
        | some batch =>
          match data.next_page_token with
          | some tok =>
            areaLoop fetch fuel (AreaParams.pagetoken tok) (acc ++ batch)
              (tr1 ++ [AreaEvent.sleep 2])
          | none => some (Except.ok (acc ++ batch, tr1))
      else some (Except.ok (acc, tr1))

/-- `get_restaurants_in_area` (lines 24-73): substitute the Barcelona
coordinates when `location is None`, then run the pagination loop from the
initial parameters with an empty accumulator and trace. -/
def get_restaurants_in_area (fetch : AreaParams → AreaPage)
    (location : Option String) (radius : Nat) (fuel : Nat) :
    Option (Except PyErr (List ListingStub × List AreaEvent)) :=
  areaLoop fetch fuel (AreaParams.initial (location.getD barcelona_coords) radius) [] []

/-! ## DetailEnricher: `get_restaurant_details` (lines 75-101) and
`enrich_with_details_and_reviews` (lines 159-207) -/

/-- The `'location'` sub-object of a details payload's geometry:
`{'lat': ..., 'lng': ...}`. -/
structure Location : Type where
  lat : ℚ
  lng : ℚ
  deriving Repr, DecidableEq

/-- The `'geometry'` object of a details payload; the Python reads
`details['geometry']['location']`, so the `location` key may be absent. -/
structure Geometry : Type where
  location : Option Location
  deriving Repr, DecidableEq

/-- The `data['result']` object of a details response.  All fields except
geometry are read with `.get`, so each is optional; geometry itself is
read with `['geometry']` and may be absent (raising `KeyError`). -/
structure DetailPayload : Type where
  name : Option String
  formatted_address : Option String
  geometry : Option Geometry
  rating : Option ℚ
  user_ratings_total : Option Nat
  price_level : Option Nat
  formatted_phone_number : Option String
  website : Option String
  types : Option (List String)
  reviews : Option (List Review)
  deriving Repr, DecidableEq

/-- The decoded JSON body of one details response: `data['status']` and
`data['result']`, each possibly absent from the dict. -/
structure DetailResponse : Type where
  status : Option String
  result : Option DetailPayload
  deriving Repr, DecidableEq

/-- `get_restaurant_details` (lines 75-101): fetch the details response
for `place_id` from the oracle `detailsOf`; return the `result` payload on
an `'OK'` status and `None` (here `Option.none`) on any other status. -/
def get_restaurant_details (detailsOf : String → DetailResponse)
    (place_id : String) : Except PyErr (Option DetailPayload) :=
  let data := detailsOf place_id
  match data.status with
  | none => Except.error (PyErr.keyError "status")
  | some st =>
    if st = "OK" then
      match data.result with
      | none => Except.error (PyErr.keyError "result")
      | some payload => Except.ok (some payload)
    else Except.ok none

/-- The merged record built on lines 186-199.  `lat`/`lng` are mandatory
(read with `['geometry']['location']['lat']`); every other detail field is
read with `.get` and may be `None`/defaulted. -/
structure EnrichedRecord : Type where
  place_id : String
  name : Option String
  address : Option String
  lat : ℚ
  lng : ℚ
  rating : Option ℚ
  total_reviews : Nat
  price_level : Option Nat
  phone : Option String
  website : Option String
  types : String
  reviews : List Review
  deriving Repr, DecidableEq

/-- The `enriched` dict construction of lines 186-199: `place_id` is taken
from the input stub; `lat`/`lng` require the nested
`geometry.location` object and raise `KeyError` when it is absent;
the remaining fields use `.get` with its defaults (`None`, `0`, `[]`),
and `types` is joined with `', '`. -/
def buildEnriched (restaurant : ListingStub) (details : DetailPayload) :
    Except PyErr EnrichedRecord :=
  match details.geometry with
  | none => Except.error (PyErr.keyError "geometry")
  | some geom =>
    match geom.location with
    | none => Except.error (PyErr.keyError "location")
    | some loc =>
      Except.ok
        { place_id := restaurant.place_id
          name := details.name
          address := details.formatted_address
          lat := loc.lat
          lng := loc.lng
          rating := details.rating
          total_reviews := details.user_ratings_total.getD 0
          price_level := details.price_level
          phone := details.formatted_phone_number
          website := details.website
          types := String.intercalate ", " (details.types.getD [])
          reviews := details.reviews.getD [] }

/-- The enrichment loop of lines 179-205: for each listing, call
`get_restaurant_details` (the call's `place_id` is recorded in the first
component, the trace of detail requests issued); on `None` skip the
listing, on a payload build the enriched record.  A raised `KeyError`
propagates, aborting the loop. -/
def enrichLoop (detailsOf : String → DetailResponse) :
    List ListingStub → List String × Except PyErr (List EnrichedRecord)
  | [] => ([], Except.ok [])
  | r :: rest =>
    match get_restaurant_details detailsOf r.place_id with
    | Except.error e => ([r.place_id], Except.error e)
    | Except.ok none =>
      let p := enrichLoop detailsOf rest
      (r.place_id :: p.1, p.2)
    | Except.ok (some details) =>
      match buildEnriched r details with
      | Except.error e => ([r.place_id], Except.error e)
      | Except.ok enr =>
        let p := enrichLoop detailsOf rest
        (r.place_id :: p.1, p.2.map (fun l => enr :: l))

/-- `enrich_with_details_and_reviews` (lines 159-207): the Python
`if max_restaurants:` truthiness test slices the input only when the cap
is a non-zero value (`None` and `0` are falsy), then the loop processes
the (possibly truncated) list. -/
def enrich_with_details_and_reviews (detailsOf : String → DetailResponse)
    (restaurants : List ListingStub) (max_restaurants : Option Nat) :
    List String × Except PyErr (List EnrichedRecord) :=
  let trunc :=
    match max_restaurants with
    | none => restaurants
    | some 0 => restaurants
    | some k => restaurants.take k
  enrichLoop detailsOf trunc

/-! ## Exporter: `create_dataframe`, lines 221-258 -/

/-- One row of the restaurants table: every key of the enriched dict
except `'reviews'`, plus the derived `'num_reviews_collected'`. -/
structure RestaurantRow : Type where
  place_id : String
  name : Option String
  address : Option String
  lat : ℚ
  lng : ℚ
  rating : Option ℚ
  total_reviews : Nat
  price_level : Option Nat
  phone : Option String
  website : Option String
  types : String
  num_reviews_collected : Nat
  deriving Repr, DecidableEq

/-- One row of the reviews table (lines 243-252): the owning record's
`place_id` and name, plus the review's own fields, with
`relative_time_description` renamed to `relative_time`. -/
structure ReviewRow : Type where
  place_id : String
  restaurant_name : Option String
  author_name : Option String
  rating : Option ℚ
  text : Option String
  time : Option Int
  language : Option String
  relative_time : Option String
  deriving Repr, DecidableEq

/-- The loop of lines 235-253: for each record append one restaurant row
(all fields but `reviews`, plus the collected-review count) and one review
row per nested review. -/
def cdLoop : List EnrichedRecord → List RestaurantRow → List ReviewRow →
    List RestaurantRow × List ReviewRow
  | [], restaurants, all_reviews => (restaurants, all_reviews)
  | rest :: more, restaurants, all_reviews =>
    let rest_data : RestaurantRow :=
      { place_id := rest.place_id
        name := rest.name
        address := rest.address
        lat := rest.lat
        lng := rest.lng
        rating := rest.rating
        total_reviews := rest.total_reviews
        price_level := rest.price_level
        phone := rest.phone
        website := rest.website
        types := rest.types
        num_reviews_collected := rest.reviews.length }
    let reviewRows : List ReviewRow := rest.reviews.map (fun review =>
      { place_id := rest.place_id
        restaurant_name := rest.name
        author_name := review.author_name
        rating := review.rating
        text := review.text
        time := review.time
        language := review.language
        relative_time := review.relative_time_description })
    cdLoop more (restaurants ++ [rest_data]) (all_reviews ++ reviewRows)

/-- `create_dataframe` (lines 221-258): flatten the enriched records into
the `(df_restaurants, df_reviews)` pair of row lists. -/
def create_dataframe (enriched_data : List EnrichedRecord) :
    List RestaurantRow × List ReviewRow :=
  cdLoop enriched_data [] []

/-- Spec-side (section 4.4): the restaurant row holds every
`EnrichedRecord` field except the nested review sequence, plus a derived
count of the reviews actually collected. -/
def specRestaurantRow (r : EnrichedRecord) : RestaurantRow :=
  { place_id := r.place_id
    name := r.name
    address := r.address
    lat := r.lat
    lng := r.lng
    rating := r.rating
    total_reviews := r.total_reviews
    price_level := r.price_level
    phone := r.phone
    website := r.website
    types := r.types
    num_reviews_collected := r.reviews.length }

/-- Spec-side (section 4.4): one review row per review, carrying the
owning record's identifier and name plus the review's own fields, with
`relative_time_description` renamed to the flatter `relative_time`. -/
def specReviewRow (r : EnrichedRecord) (v : Review) : ReviewRow :=
  { place_id := r.place_id
    restaurant_name := r.name
    author_name := v.author_name
    rating := v.rating
    text := v.text
    time := v.time
    language := v.language
    relative_time := v.relative_time_description }

/-! ## Concrete fixtures

Closed sample values used to instantiate the theorems below on concrete
inputs. -/

/-- A sample review. -/
def reviewW : Review :=
  { author_name := some "u1", rating := some 5, text := some "Muy bueno",
    time := some 1700000000, language := some "es",
    relative_time_description := some "hace un mes" }

/-- A sample listing stub. -/
def stubW : ListingStub := { place_id := "pw", name := some "Bar W" }

/-- A second sample listing stub with a distinct identifier. -/
def stubB : ListingStub := { place_id := "pb", name := some "Bar B" }

/-- A fully populated details payload. -/
def payloadW : DetailPayload :=
  { name := some "Bar W", formatted_address := some "Calle 1",
    geometry := some { location := some { lat := 41, lng := 2 } },
    rating := some 4, user_ratings_total := some 7, price_level := some 2,
    formatted_phone_number := some "600123123", website := some "example.net",
    types := some ["restaurant", "bar"], reviews := some [reviewW] }

/-- The record `buildEnriched` produces from `stubW` and `payloadW`. -/
def enrW : EnrichedRecord :=
  { place_id := "pw", name := some "Bar W", address := some "Calle 1",
    lat := 41, lng := 2, rating := some 4, total_reviews := 7,
    price_level := some 2, phone := some "600123123",
    website := some "example.net", types := "restaurant, bar",
    reviews := [reviewW] }

/-- The record `buildEnriched` produces from `stubB` and `payloadW`. -/
def enrB : EnrichedRecord :=
  { place_id := "pb", name := some "Bar W", address := some "Calle 1",
    lat := 41, lng := 2, rating := some 4, total_reviews := 7,
    price_level := some 2, phone := some "600123123",
    website := some "example.net", types := "restaurant, bar",
    reviews := [reviewW] }

/-- A details oracle answering every identifier with an `OK` status and
`payloadW`. -/
def detailsOfW : String → DetailResponse :=
  fun _ => { status := some "OK", result := some payloadW }

/-- A details oracle answering every identifier with a non-success
status. -/
def detailsNF : String → DetailResponse :=
  fun _ => { status := some "NOT_FOUND", result := none }

/-- A details payload with every optional field absent — in particular no
geometry. -/
def payloadNoGeom : DetailPayload :=
  { name := none, formatted_address := none, geometry := none, rating := none,
    user_ratings_total := none, price_level := none,
    formatted_phone_number := none, website := none, types := none,
    reviews := none }

/-- A details oracle answering with an `OK` status but a payload missing
the geometry object. -/
def detailsNoGeom : String → DetailResponse :=
  fun _ => { status := some "OK", result := some payloadNoGeom }

/-- Twenty distinct stubs for the first page of a paginated search. -/
def stubs20 : List ListingStub :=
  (List.range 20).map (fun i => { place_id := "p" ++ toString i, name := none })

/-- Five distinct stubs for the second page. -/
def stubs5 : List ListingStub :=
  (List.range 5).map (fun i => { place_id := "q" ++ toString i, name := none })

/-- A nearby-search oracle serving two pages: any initial request yields
the batch of 20 with continuation token `"T"`, any pagetoken request the
batch of 5 with no token. -/
def twoPageFetch : AreaParams → AreaPage
  | AreaParams.initial _ _ =>
    { status := some "OK", results := some stubs20, next_page_token := some "T" }
  | AreaParams.pagetoken _ =>
    { status := some "OK", results := some stubs5, next_page_token := none }

/-- A nearby-search oracle whose every response is `ZERO_RESULTS`. -/
def zeroFetch : AreaParams → AreaPage :=
  fun _ => { status := some "ZERO_RESULTS", results := none, next_page_token := none }

theorem dedupArea_fst_eq_specFirstSeen (l : List ListingStub) (seen : List String) :
    (dedupArea l seen).1 = specFirstSeen l seen := by
  induction l generalizing seen with
  | nil => rfl
  | cons r rest ih =>
    simp only [dedupArea, specFirstSeen]
    by_cases h : r.place_id ∈ seen
    · simp [h, ih]
    · simp [h, ih]

theorem dedupArea_snd_mem (l : List ListingStub) (seen : List String) (x : String) :
    x ∈ (dedupArea l seen).2 ↔ x ∈ seen ∨ x ∈ l.map ListingStub.place_id := by
  induction l generalizing seen with
  | nil => simp [dedupArea]
  | cons r rest ih =>
    simp only [dedupArea]
    by_cases h : r.place_id ∈ seen
    · by_cases hx : x = r.place_id
      · subst hx; simp [h, ih]
      · simp [h, ih, hx]
    · simp only [h, if_false]
      rw [ih]
      simp only [List.mem_cons, List.map_cons]
      constructor
      · rintro (⟨hx | hx⟩ | hx)
        · exact Or.inr (by simp [hx])
        · exact Or.inl hx
        · exact Or.inr (by simp [hx])
      · rintro (hx | hx | hx)
        · exact Or.inl (Or.inr hx)
        · exact Or.inl (Or.inl hx)
        · exact Or.inr hx

theorem specFirstSeen_append (l₁ l₂ : List ListingStub) (seen : List String) :
    specFirstSeen (l₁ ++ l₂) seen =
      (dedupArea l₁ seen).1 ++ specFirstSeen l₂ (dedupArea l₁ seen).2 := by
  induction l₁ generalizing seen with
  | nil => simp [dedupArea]
  | cons r rest ih =>
    simp only [List.cons_append, specFirstSeen, dedupArea]
    by_cases h : r.place_id ∈ seen
    · simp [h, ih]
    · simp [h, ih]

/-- The anchor-by-anchor dedup loop computes the same result as a single
first-seen pass over the concatenation of all areas' batches. -/
theorem collectLoop_eq_specFirstSeen (areas : List (List ListingStub)) (seen : List String) :
    collectLoop areas seen = specFirstSeen areas.flatten seen := by
  induction areas generalizing seen with
  | nil => rfl
  | cons area more ih =>
    simp only [collectLoop, List.flatten_cons, specFirstSeen_append, ih]

theorem mem_map_specFirstSeen (l : List ListingStub) (seen : List String) (x : String) :
    x ∈ (specFirstSeen l seen).map ListingStub.place_id ↔
      x ∈ l.map ListingStub.place_id ∧ x ∉ seen := by
  induction l generalizing seen with
  | nil => simp [specFirstSeen]
  | cons r rest ih =>
    simp only [specFirstSeen]
    by_cases h : r.place_id ∈ seen
    · rw [if_pos h, ih]
      simp only [List.map_cons, List.mem_cons]
      constructor
      · rintro ⟨hx, hs⟩; exact ⟨Or.inr hx, hs⟩
      · rintro ⟨hx | hx, hs⟩
        · exact absurd (hx ▸ h) hs
        · exact ⟨hx, hs⟩
    · rw [if_neg h]
      simp only [List.map_cons, List.mem_cons, ih]
      constructor
      · rintro (hx | ⟨hx, hs⟩)
        · exact ⟨Or.inl hx, hx ▸ h⟩
        · exact ⟨Or.inr hx, fun hc => hs (Or.inr hc)⟩
      · rintro ⟨hx | hx, hs⟩
        · exact Or.inl hx
        · by_cases hxr : x = r.place_id
          · exact Or.inl hxr
          · exact Or.inr ⟨hx, by simp [hxr, hs]⟩

theorem nodup_map_specFirstSeen (l : List ListingStub) (seen : List String) :
    ((specFirstSeen l seen).map ListingStub.place_id).Nodup := by
  induction l generalizing seen with
  | nil => simp [specFirstSeen]
  | cons r rest ih =>
    simp only [specFirstSeen]
    by_cases h : r.place_id ∈ seen
    · rw [if_pos h]; exact ih _
    · rw [if_neg h]
      simp only [List.map_cons, List.nodup_cons]
      refine ⟨fun hc => ?_, ih _⟩
      exact ((mem_map_specFirstSeen _ _ _).mp hc).2 (List.mem_cons_self _ _)

/-- **C1.** For every sequence of listing batches returned across all
anchor points, `collect_barcelona_restaurants` yields a collection in
which each distinct `place_id` occurring in any batch appears exactly once
(and no other identifier appears), and the retained stubs are exactly the
first-seen occurrences in the order the identifiers were first
encountered while iterating anchor points and their batches. -/
theorem C1_collect_dedup_unique_first_seen (areas : List (List ListingStub)) :
    (∀ id : String,
      ((collect_barcelona_restaurants areas).map ListingStub.place_id).count id =
        if id ∈ areas.flatten.map ListingStub.place_id then 1 else 0) ∧
    collect_barcelona_restaurants areas = specFirstSeen areas.flatten [] := by
  have hcoll : collect_barcelona_restaurants areas = specFirstSeen areas.flatten [] :=
    collectLoop_eq_specFirstSeen areas []
  refine ⟨fun id => ?_, hcoll⟩
  rw [hcoll]
  by_cases h : id ∈ areas.flatten.map ListingStub.place_id
  · rw [if_pos h]
    exact List.count_eq_one_of_mem (nodup_map_specFirstSeen _ _)
      ((mem_map_specFirstSeen _ _ _).mpr ⟨h, List.not_mem_nil _⟩)
  · rw [if_neg h]
    exact List.count_eq_zero_of_not_mem
      (fun hc => h ((mem_map_specFirstSeen _ _ _).mp hc).1)

theorem cdLoop_eq (l : List EnrichedRecord) (rs : List RestaurantRow) (vs : List ReviewRow) :
    cdLoop l rs vs =
      (rs ++ l.map specRestaurantRow,
       vs ++ l.flatMap (fun r => r.reviews.map (specReviewRow r))) := by
  induction l generalizing rs vs with
  | nil => simp [cdLoop]
  | cons r rest ih =>
    simp only [cdLoop, ih, List.map_cons, List.flatMap_cons, List.append_assoc]
    rfl

theorem create_dataframe_eq (e : List EnrichedRecord) :
    create_dataframe e =
      (e.map specRestaurantRow,
       e.flatMap (fun r => r.reviews.map (specReviewRow r))) := by
  simpa [create_dataframe] using cdLoop_eq e [] []

/-- **C4.** `create_dataframe` produces exactly one restaurant row per
enriched record — carrying every field of the record except the nested
review list, plus the derived count equal to the length of that record's
review list — and one review row per nested review, carrying the owning
record's identifier and name plus the review's own fields, with
`relative_time_description` renamed to `relative_time`; both in input
order. -/
theorem C4_create_dataframe_shape (e : List EnrichedRecord) :
    create_dataframe e =
      (e.map specRestaurantRow,
       e.flatMap (fun r => r.reviews.map (specReviewRow r))) :=
  create_dataframe_eq e

theorem countP_place_id_eq_one (l : List EnrichedRecord) (a : String)
    (hnd : (l.map EnrichedRecord.place_id).Nodup)
    (ha : a ∈ l.map EnrichedRecord.place_id) :
    l.countP (fun r => decide (r.place_id = a)) = 1 := by
  induction l with
  | nil => simp at ha
  | cons r rest ih =>
    simp only [List.map_cons, List.nodup_cons] at hnd
    rcases List.mem_cons.mp ha with hxa | hxa
    · rw [List.countP_cons_of_pos _ _ (by simpa using hxa.symm)]
      have hz : rest.countP (fun x => decide (x.place_id = a)) = 0 := by
        rw [List.countP_eq_zero]
        intro x hx hpx
        exact hnd.1 (by
          simp only [decide_eq_true_eq] at hpx
          exact hxa ▸ hpx ▸ List.mem_map_of_mem EnrichedRecord.place_id hx)
      omega
    · rw [List.countP_cons_of_neg, ih hnd.2 hxa]
      simp only [decide_eq_true_eq]
      intro hr
      exact hnd.1 (hr ▸ hxa)

/-- **C2.** Given enriched input records with pairwise-distinct
identifiers, the restaurant table of `create_dataframe` has pairwise
distinct identifiers, and every review row's foreign-key identifier
matches exactly one restaurant row of the same output. -/
theorem C2_output_foreign_key_invariant (e : List EnrichedRecord)
    (hnd : (e.map EnrichedRecord.place_id).Nodup) :
    ((create_dataframe e).1.map RestaurantRow.place_id).Nodup ∧
    ∀ rv ∈ (create_dataframe e).2,
      (create_dataframe e).1.countP (fun rr => decide (rr.place_id = rv.place_id)) = 1 := by
  rw [create_dataframe_eq]
  constructor
  · rw [List.map_map]
    exact hnd
  · intro rv hrv
    rw [List.mem_flatMap] at hrv
    obtain ⟨r, hr, hrow⟩ := hrv
    rw [List.mem_map] at hrow
    obtain ⟨v, _, hv⟩ := hrow
    have hpid : rv.place_id = r.place_id := by rw [← hv]; rfl
    rw [List.countP_map]
    have : ((fun rr => decide (rr.place_id = rv.place_id)) ∘ specRestaurantRow) =
        fun r' => decide (r'.place_id = rv.place_id) := rfl
    rw [this, hpid]
    exact countP_place_id_eq_one e r.place_id hnd (List.mem_map_of_mem _ hr)

theorem buildEnriched_ok_place_id (s : ListingStub) (d : DetailPayload)
    (r : EnrichedRecord) (h : buildEnriched s d = Except.ok r) :
    r.place_id = s.place_id := by
  cases hg : d.geometry with
  | none => simp [buildEnriched, hg] at h
  | some geom =>
    cases hl : geom.location with
    | none => simp [buildEnriched, hg, hl] at h
    | some loc =>
      simp only [buildEnriched, hg, hl, Except.ok.injEq] at h
      rw [← h]

theorem enrichLoop_trace_of_ok (detailsOf : String → DetailResponse)
    (l : List ListingStub) (recs : List EnrichedRecord)
    (h : (enrichLoop detailsOf l).2 = Except.ok recs) :
    (enrichLoop detailsOf l).1 = l.map ListingStub.place_id := by
  induction l generalizing recs with
  | nil => rfl
  | cons r rest ih =>
    simp only [enrichLoop] at h ⊢
    cases hd : get_restaurant_details detailsOf r.place_id with
    | error e => simp [hd] at h
    | ok od =>
      cases od with
      | none =>
        simp only [hd] at h ⊢
        rw [ih recs h, List.map_cons]
      | some details =>
        cases hb : buildEnriched r details with
        | error e => simp [hd, hb] at h
        | ok enr =>
          simp only [hd, hb] at h ⊢
          cases hrec : (enrichLoop detailsOf rest).2 with
          | error e => rw [hrec] at h; simp [Except.map] at h
          | ok recs' => rw [ih recs' hrec, List.map_cons]

theorem enrichLoop_ids_sublist (detailsOf : String → DetailResponse)
    (l : List ListingStub) (recs : List EnrichedRecord)
    (h : (enrichLoop detailsOf l).2 = Except.ok recs) :
    List.Sublist (recs.map EnrichedRecord.place_id) (l.map ListingStub.place_id) := by
  induction l generalizing recs with
  | nil =>
    simp only [enrichLoop] at h
    cases h
    simp
  | cons r rest ih =>
    simp only [enrichLoop] at h
    cases hd : get_restaurant_details detailsOf r.place_id with
    | error e => simp [hd] at h
    | ok od =>
      cases od with
      | none =>
        simp only [hd] at h
        exact (ih recs h).cons _
      | some details =>
        cases hb : buildEnriched r details with
        | error e => simp [hd, hb] at h
        | ok enr =>
          simp only [hd, hb] at h
          cases hrec : (enrichLoop detailsOf rest).2 with
          | error e => rw [hrec] at h; simp [Except.map] at h
          | ok recs' =>
            rw [hrec] at h
            simp only [Except.map, Except.ok.injEq] at h
            subst h
            simp only [List.map_cons]
            rw [buildEnriched_ok_place_id r details enr hb]
            exact (ih recs' hrec).cons₂ _

/-- **C3.** Every enriched record's identifier equals the identifier of
the listing stub that produced it: `buildEnriched` copies `place_id` from
the input stub, never from the detail payload, and consequently the
identifiers of any successful enrichment run form a sublist of the input
stubs' identifiers. -/
theorem C3_enriched_id_from_stub :
    (∀ (s : ListingStub) (d : DetailPayload) (r : EnrichedRecord),
      buildEnriched s d = Except.ok r → r.place_id = s.place_id) ∧
    (∀ (detailsOf : String → DetailResponse) (l : List ListingStub)
      (recs : List EnrichedRecord),
      (enrichLoop detailsOf l).2 = Except.ok recs →
      List.Sublist (recs.map EnrichedRecord.place_id) (l.map ListingStub.place_id)) :=
  ⟨buildEnriched_ok_place_id, enrichLoop_ids_sublist⟩

/-- **C5.** A positive cap `k` makes `enrich_with_details_and_reviews`
issue exactly one detail request per stub of the first `k` input stubs, in
the input's original order (pure prefix slicing); when `k` does not exceed
the input length, exactly `k` requests are issued. -/
theorem C5_cap_is_prefix_slice (detailsOf : String → DetailResponse)
    (stubs : List ListingStub) (k : Nat) (hk : 0 < k)
    (recs : List EnrichedRecord)
    (hok : (enrich_with_details_and_reviews detailsOf stubs (some k)).2 = Except.ok recs) :
    (enrich_with_details_and_reviews detailsOf stubs (some k)).1 =
      (stubs.take k).map ListingStub.place_id ∧
    (k ≤ stubs.length →
      (enrich_with_details_and_reviews detailsOf stubs (some k)).1.length = k) := by
  obtain ⟨n, rfl⟩ : ∃ n, k = n + 1 := ⟨k - 1, by omega⟩
  simp only [enrich_with_details_and_reviews] at hok ⊢
  refine ⟨enrichLoop_trace_of_ok detailsOf _ recs hok, fun hlen => ?_⟩
  rw [enrichLoop_trace_of_ok detailsOf _ recs hok, List.length_map, List.length_take]
  omega

/-- **C8.** A detail call returning a non-success status makes
`get_restaurant_details` return `None` (no exception, no retry), the
listing contributes zero enriched records while its detail request is
still issued exactly once, and the records produced by the rest of the
run are exactly those produced had the listing not been present. -/
theorem C8_non_success_skip (detailsOf : String → DetailResponse)
    (s : ListingStub) (st : String)
    (hst : (detailsOf s.place_id).status = some st) (hne : st ≠ "OK") :
    get_restaurant_details detailsOf s.place_id = Except.ok none ∧
    (∀ post : List ListingStub,
      enrichLoop detailsOf (s :: post) =
        (s.place_id :: (enrichLoop detailsOf post).1, (enrichLoop detailsOf post).2)) ∧
    (∀ pre post : List ListingStub,
      (enrichLoop detailsOf (pre ++ s :: post)).2 =
        (enrichLoop detailsOf (pre ++ post)).2) := by
  have hskip : get_restaurant_details detailsOf s.place_id = Except.ok none := by
    simp [get_restaurant_details, hst, hne]
  have hcons : ∀ post : List ListingStub,
      enrichLoop detailsOf (s :: post) =
        (s.place_id :: (enrichLoop detailsOf post).1, (enrichLoop detailsOf post).2) := by
    intro post
    simp only [enrichLoop, hskip]
  refine ⟨hskip, hcons, fun pre post => ?_⟩
  induction pre with
  | nil => rw [List.nil_append, List.nil_append, hcons]
  | cons q pre ih =>
    simp only [List.cons_append, enrichLoop]
    cases hq : get_restaurant_details detailsOf q.place_id with
    | error e => simp [hq]
    | ok od =>
      cases od with
      | none => simpa [hq] using ih
      | some details =>
        cases hb : buildEnriched q details with
        | error e => simp [hq, hb]
        | ok enr =>
          simp only [hq, hb]
          exact congrArg (Except.map fun l => enr :: l) ih

/-- **C9.** On a success-status detail payload, the nested geometry
coordinate sub-object is mandatory: its absence raises a `KeyError` that
aborts the enrichment run, while when it is present the record is built
without raising, regardless of the other detail fields, which take their
`.get` defaults (`None`, count `0`, empty type string, empty review
list) when absent. -/
theorem C9_geometry_mandatory (detailsOf : String → DetailResponse)
    (s : ListingStub) (d : DetailPayload)
    (hd : detailsOf s.place_id = ⟨some "OK", some d⟩) :
    ((d.geometry = none ∨ ∃ g, d.geometry = some g ∧ g.location = none) →
      ∃ e, buildEnriched s d = Except.error e ∧
        ∀ rest : List ListingStub,
          enrichLoop detailsOf (s :: rest) = ([s.place_id], Except.error e)) ∧
    (∀ (g : Geometry) (loc : Location), d.geometry = some g → g.location = some loc →
      buildEnriched s d = Except.ok
        { place_id := s.place_id
          name := d.name
          address := d.formatted_address
          lat := loc.lat
          lng := loc.lng
          rating := d.rating
          total_reviews := d.user_ratings_total.getD 0
          price_level := d.price_level
          phone := d.formatted_phone_number
          website := d.website
          types := String.intercalate ", " (d.types.getD [])
          reviews := d.reviews.getD [] }) := by
  have hget : get_restaurant_details detailsOf s.place_id = Except.ok (some d) := by
    simp [get_restaurant_details, hd]
  constructor
  · intro hmiss
    have herr : ∃ e, buildEnriched s d = Except.error e := by
      rcases hmiss with hg | ⟨g, hg, hl⟩
      · exact ⟨PyErr.keyError "geometry", by simp [buildEnriched, hg]⟩
      · exact ⟨PyErr.keyError "location", by simp [buildEnriched, hg, hl]⟩
    obtain ⟨e, he⟩ := herr
    exact ⟨e, he, fun rest => by simp only [enrichLoop, hget, he]⟩
  · intro g loc hg hl
    simp [buildEnriched, hg, hl]

/-- **C10.** A cap of `0` is falsy in the Python truthiness test, so it
applies no truncation: `enrich_with_details_and_reviews` behaves exactly
as with cap `None`, which in turn runs the loop on the whole input; and
when such a run completes, a detail request was issued for every input
listing, in order. -/
theorem C10_zero_cap_means_no_cap (detailsOf : String → DetailResponse)
    (stubs : List ListingStub) :
    enrich_with_details_and_reviews detailsOf stubs (some 0) =
      enrich_with_details_and_reviews detailsOf stubs none ∧
    enrich_with_details_and_reviews detailsOf stubs none = enrichLoop detailsOf stubs ∧
    (∀ recs : List EnrichedRecord,
      (enrich_with_details_and_reviews detailsOf stubs (some 0)).2 = Except.ok recs →
      (enrich_with_details_and_reviews detailsOf stubs (some 0)).1 =
        stubs.map ListingStub.place_id) :=
  ⟨rfl, rfl, fun recs hok => enrichLoop_trace_of_ok detailsOf stubs recs hok⟩

/-- **C6.** When the area search's first page is a success batch with a
continuation token and the second page a success batch without one,
`get_restaurants_in_area` returns the 25 stubs of both batches in arrival
order, and the event trace shows exactly one `time.sleep` — of the
mandated 2 seconds — placed between observing the token and issuing the
follow-up `pagetoken` request. -/
theorem C6_two_page_pagination (fetch : AreaParams → AreaPage)
    (loc : String) (radius : Nat) (b0 b1 : List ListingStub) (tok : String) (fuel : Nat)
    (h0 : fetch (AreaParams.initial loc radius) =
      { status := some "OK", results := some b0, next_page_token := some tok })
    (h1 : fetch (AreaParams.pagetoken tok) =
      { status := some "OK", results := some b1, next_page_token := none })
    (hb0 : b0.length = 20) (hb1 : b1.length = 5) (hfuel : 2 ≤ fuel) :
    get_restaurants_in_area fetch (some loc) radius fuel =
      some (Except.ok (b0 ++ b1,
        [AreaEvent.request (AreaParams.initial loc radius),
         AreaEvent.sleep 2,
         AreaEvent.request (AreaParams.pagetoken tok)])) ∧
    (b0 ++ b1).length = 25 := by
  obtain ⟨n, rfl⟩ : ∃ n, fuel = n + 2 := ⟨fuel - 2, by omega⟩
  constructor
  · simp [get_restaurants_in_area, areaLoop, h0, h1]
  · simp [List.length_append, hb0, hb1]

/-- **C7.** An anchor-point search whose very first page has status
`ZERO_RESULTS` returns an empty stub list and terminates normally without
raising: the result is `Except.ok` with no listings, the trace holding
only the single initial request. -/
theorem C7_zero_results_soft_stop (fetch : AreaParams → AreaPage)
    (location : Option String) (radius fuel : Nat)
    (hz : (fetch (AreaParams.initial (location.getD barcelona_coords) radius)).status =
      some "ZERO_RESULTS")
    (hfuel : 1 ≤ fuel) :
    get_restaurants_in_area fetch location radius fuel =
      some (Except.ok ([],
        [AreaEvent.request (AreaParams.initial (location.getD barcelona_coords) radius)])) := by
  obtain ⟨n, rfl⟩ : ∃ n, fuel = n + 1 := ⟨fuel - 1, by omega⟩
  simp [get_restaurants_in_area, areaLoop, hz]

/-- Witness for C2: the invariant instantiated on two concrete enriched
records with distinct identifiers. -/
theorem C2_witness :
    ((create_dataframe [enrW, enrB]).1.map RestaurantRow.place_id).Nodup ∧
    ∀ rv ∈ (create_dataframe [enrW, enrB]).2,
      (create_dataframe [enrW, enrB]).1.countP
        (fun rr => decide (rr.place_id = rv.place_id)) = 1 :=
  C2_output_foreign_key_invariant [enrW, enrB] (by decide)

/-- Witness for C3: a concrete enrichment of `stubW` keeps its
identifier. -/
theorem C3_witness :
    enrW.place_id = stubW.place_id ∧
    List.Sublist ([enrW].map EnrichedRecord.place_id)
      ([stubW].map ListingStub.place_id) :=
  ⟨C3_enriched_id_from_stub.1 stubW payloadW enrW rfl,
   C3_enriched_id_from_stub.2 detailsOfW [stubW] [enrW] rfl⟩

/-- Witness for C5: a cap of 1 on a 2-stub input issues exactly the first
stub's detail request. -/
theorem C5_witness :
    (enrich_with_details_and_reviews detailsOfW [stubW, stubB] (some 1)).1 =
      (([stubW, stubB] : List ListingStub).take 1).map ListingStub.place_id ∧
    (1 ≤ ([stubW, stubB] : List ListingStub).length →
      (enrich_with_details_and_reviews detailsOfW [stubW, stubB] (some 1)).1.length = 1) :=
  C5_cap_is_prefix_slice detailsOfW [stubW, stubB] 1 (by omega) [enrW] rfl

/-- Witness for C6: the two-page scenario on a concrete oracle with pages
of 20 and 5 stubs. -/
theorem C6_witness :
    get_restaurants_in_area twoPageFetch (some "L") 2000 5 =
      some (Except.ok (stubs20 ++ stubs5,
        [AreaEvent.request (AreaParams.initial "L" 2000),
         AreaEvent.sleep 2,
         AreaEvent.request (AreaParams.pagetoken "T")])) ∧
    (stubs20 ++ stubs5).length = 25 :=
  C6_two_page_pagination twoPageFetch "L" 2000 stubs20 stubs5 "T" 5 rfl rfl
    (by simp [stubs20]) (by simp [stubs5]) (by omega)

/-- Witness for C7: a concrete always-`ZERO_RESULTS` oracle yields an
empty, error-free area search. -/
theorem C7_witness :
    get_restaurants_in_area zeroFetch none 5000 1 =
      some (Except.ok ([],
        [AreaEvent.request
          (AreaParams.initial ((none : Option String).getD barcelona_coords) 5000)])) :=
  C7_zero_results_soft_stop zeroFetch none 5000 1 rfl (by omega)

/-- Witness for C8: a concrete non-success details oracle skips `stubW`
and leaves the surrounding run's records unchanged. -/
theorem C8_witness :
    get_restaurant_details detailsNF stubW.place_id = Except.ok none ∧
    enrichLoop detailsNF (stubW :: [stubB]) =
      (stubW.place_id :: (enrichLoop detailsNF [stubB]).1,
       (enrichLoop detailsNF [stubB]).2) ∧
    (enrichLoop detailsNF ([stubB] ++ stubW :: [stubB])).2 =
      (enrichLoop detailsNF ([stubB] ++ [stubB])).2 :=
  ⟨(C8_non_success_skip detailsNF stubW "NOT_FOUND" rfl (by decide)).1,
   (C8_non_success_skip detailsNF stubW "NOT_FOUND" rfl (by decide)).2.1 [stubB],
   (C8_non_success_skip detailsNF stubW "NOT_FOUND" rfl (by decide)).2.2 [stubB] [stubB]⟩

/-- Witness for C9: on a concrete success payload whose geometry is
present, the record is built without raising, the optional fields taking
their payload values. -/
theorem C9_witness :
    buildEnriched stubW payloadW = Except.ok
      { place_id := stubW.place_id
        name := payloadW.name
        address := payloadW.formatted_address
        lat := 41
        lng := 2
        rating := payloadW.rating
        total_reviews := payloadW.user_ratings_total.getD 0
        price_level := payloadW.price_level
        phone := payloadW.formatted_phone_number
        website := payloadW.website
        types := String.intercalate ", " (payloadW.types.getD [])
        reviews := payloadW.reviews.getD [] } :=
  (C9_geometry_mandatory detailsOfW stubW payloadW rfl).2
    { location := some { lat := 41, lng := 2 } } { lat := 41, lng := 2 } rfl rfl

/-- Witness for C10: on a concrete one-stub input, a zero cap equals no
cap and every listing's detail request is issued. -/
theorem C10_witness :
    enrich_with_details_and_reviews detailsOfW [stubW] (some 0) =
      enrich_with_details_and_reviews detailsOfW [stubW] none ∧
    (enrich_with_details_and_reviews detailsOfW [stubW] (some 0)).1 =
      [stubW].map ListingStub.place_id :=
  ⟨(C10_zero_cap_means_no_cap detailsOfW [stubW]).1,
   (C10_zero_cap_means_no_cap detailsOfW [stubW]).2.2 [enrW] rfl⟩

end Hermes
